import Mathlib

/-!
Verification of the Stellar VPN desktop supervisor.

Shallow embedding of the session supervisor (`src-tauri/src/main.rs`), the
Linux kill-switch helper (`src-tauri/bin/stellar-vpn-helper.rs`) and the
macOS privileged helper (`src-tauri/bin/stellar-vpn-helper-macos.rs`).
External collaborators (HTTP client, filesystem, DNS resolver, subprocess
spawning, the `nft` firewall engine) are passed in as explicit environment
records, so all supervisor logic is executable Lean code mirroring the Rust
control flow line by line.
-/

namespace StellarVPN

/-!
### String primitives

The Rust sources use `str::trim`, `split`, `contains`, `starts_with`,
`to_lowercase` and `parse`.  These are re-implemented here by structural
recursion over the character list, so that every embedded function evaluates
inside the kernel (the library versions recurse on UTF-8 byte positions and
do not reduce definitionally).
-/

/-- Rust `str::is_empty`. -/
def strIsEmpty (s : String) : Bool := s.data.isEmpty

/-- Rust `str::starts_with`. -/
def strStartsWith (s pre : String) : Bool := pre.data.isPrefixOf s.data

/-- Rust `str::to_lowercase` (ASCII range, which covers every use site). -/
def strToLower (s : String) : String := ⟨s.data.map Char.toLower⟩

def listTrim (l : List Char) : List Char :=
  ((l.dropWhile Char.isWhitespace).reverse.dropWhile Char.isWhitespace).reverse

/-- Rust `str::trim`. -/
def strTrim (s : String) : String := ⟨listTrim s.data⟩

/-- Split on a non-empty needle; fuel-driven so it is structural.  Matches
Rust `str::split` on a string pattern (empty pieces preserved). -/
def splitOnGo (needle : List Char) : Nat → List Char → List Char → List (List Char)
  | 0, rest, acc => [acc.reverse ++ rest]
  | _ + 1, [], acc => [acc.reverse]
  | fuel + 1, c :: rest, acc =>
    if needle.isPrefixOf (c :: rest) then
      acc.reverse :: splitOnGo needle fuel (List.drop needle.length (c :: rest)) []
    else splitOnGo needle fuel rest (c :: acc)

def strSplitOn (s sep : String) : List String :=
  if sep.data.isEmpty then [s]
  else (splitOnGo sep.data (s.data.length + 1) s.data []).map (fun l => ⟨l⟩)

/-- Substring test modelling Rust `str::contains` for a non-empty needle:
`n` occurs inside `h` exactly when splitting on `n` produces more than one
piece. -/
def strContains (h n : String) : Bool :=
  (strSplitOn h n).length != 1

def splitWsGo : List Char → List Char → List String
  | [], acc => if acc.isEmpty then [] else [(⟨acc.reverse⟩ : String)]
  | c :: rest, acc =>
    if c.isWhitespace then
      (if acc.isEmpty then [] else [(⟨acc.reverse⟩ : String)]) ++ splitWsGo rest []
    else splitWsGo rest (c :: acc)

/-- Rust `str::split_whitespace`: split on whitespace, dropping empty pieces. -/
def splitWs (s : String) : List String := splitWsGo s.data []

/-- Join a list of strings with a separator (`Vec::join` / slice patterns). -/
def strIntercalate (sep : String) : List String → String
  | [] => ""
  | [x] => x
  | x :: rest => x ++ sep ++ strIntercalate sep rest

/-- `u64::saturating_add(1)` on a value already below `2^64`. -/
def satAdd64 (x : Nat) : Nat := min (x + 1) (2 ^ 64 - 1)

/-- Rust `str::parse::<u16>()`: optional leading `+`, decimal digits, value
below `2^16`. -/
def parseU16 (s : String) : Option Nat :=
  let ds := match s.data with
            | '+' :: rest => rest
            | l => l
  if ds.isEmpty then none
  else
    match ds.foldl
        (fun acc c =>
          match acc with
          | some a => if c.isDigit then some (a * 10 + (c.toNat - 48)) else none
          | none => none)
        (some 0) with
    | some v => if v < 65536 then some v else none
    | none => none

/-- Rust `str::lines()`; every consumer in the sources trims each line, which
absorbs the `\r`-stripping difference. -/
def rustLines (s : String) : List String := strSplitOn s "\n"

/-! ## Constants from `src-tauri/src/main.rs` -/

def DEFAULT_OVPN_URL : String :=
  "https://stellarvpnserverstorage.blob.core.windows.net/openvpn/stellar-switzerland.ovpn"

/-- If connecting is stuck, the supervisor aborts and emits logs. -/
def CONNECT_STUCK_SECS : Nat := 10

def CONNECT_STUCK_IDLE_GRACE_MS : Nat := 2000

def TUN_IFNAME : String := "tun-stellar"

/-! ## Supervisor state (`VpnInner`) -/

/-- The supervisor's shared mutable state, `struct VpnInner` in `main.rs`.
`process` holds the supervised child (as an abstract handle), `pid` the
recovered/observed OS pid. -/
structure VpnSt where
  process : Option Nat
  pid : Option Nat
  status : String
  auth_path : Option String
  log_path : Option String
  status_path : Option String
  pid_path : Option String
  session_id : Nat
  killswitch_enabled : Bool
  crash_recovery_enabled : Bool
  last_proto : String
  last_port : Nat
  last_remote_ip : Option String
  connect_started_at_ms : Nat
  last_log_at_ms : Nat
  last_log_pos : Nat
deriving DecidableEq, Repr

/-- `VpnState::new()` in `main.rs`: the initial supervisor state. -/
def initVpnSt : VpnSt :=
  { process := none
    pid := none
    status := "disconnected"
    auth_path := none
    log_path := none
    status_path := none
    pid_path := none
    session_id := 0
    killswitch_enabled := false
    crash_recovery_enabled := true
    last_proto := "udp"
    last_port := 1194
    last_remote_ip := none
    connect_started_at_ms := 0
    last_log_at_ms := 0
    last_log_pos := 0 }

/-- An HTTP response as seen by `download_config_to_app_data`: success flag of
the status code plus the body bytes (as a string, matching the code's
`from_utf8(...).unwrap_or("")` view). -/
structure HttpResp where
  success : Bool
  body : String

/-- The external world as consumed by the supervisor: HTTP client, filesystem,
binary lookup, pid liveness, DNS, clock, privileges, firewall engine presence,
resolver list, and the outcomes of the fallible filesystem/spawn steps of one
`vpn_connect` invocation. -/
structure Env where
  http : String → Option HttpResp
  fileExists : String → Bool
  readFile : String → String
  openvpnLocated : Option String
  pidAlive : Nat → Bool
  resolveIp : String → Nat → Option String
  nowMs : Nat
  isRoot : Bool
  nftExists : Bool
  nameservers : List String
  authFile : Except String String
  runtimeFiles : Except String (String × String × String)
  spawn : Except String Nat
  pidFileRead : Option Nat

/-! ## URL handling -/

/-- Modelled scheme extraction for the external `url::Url::parse`: the part
before `"://"`, lowercased, when present. -/
def urlScheme (s : String) : Option String :=
  match strSplitOn s "://" with
  | [] => none
  | [_] => none
  | sch :: _ => some (strToLower sch)

/-- `is_http_url` in `main.rs`. -/
def is_http_url (s : String) : Bool :=
  match urlScheme s with
  | some sch => sch == "http" || sch == "https"
  | none => false

/-- `download_config_to_app_data` in `main.rs`: https-only, bounded size,
sanity-checked body; on success returns the cache path together with the
bytes that were written there.  The cache path stands in for
`configs/{sha256(url)}.ovpn` (injective in the url, like the hash). -/
def download_config_to_app_data (env : Env) (config_url : String) :
    Except String (String × String) :=
  match urlScheme config_url with
  | none => .error "Invalid config URL"
  | some sch =>
    if sch != "https" then .error "Config URL must be https"
    else
      match env.http config_url with
      | none => .error "Failed to download config"
      | some resp =>
        if !resp.success then .error "Config download failed: HTTP"
        else if resp.body.length > 2000000 then
          .error "Config file too large (refusing)"
        else if !(strContains resp.body "client" && strContains resp.body "remote") then
          .error "Downloaded file does not look like an OpenVPN profile"
        else .ok ("configs/" ++ config_url ++ ".ovpn", resp.body)

/-! ## Config parsing (`parse_ovpn_proto_port`, remote seeding) -/

/-- One iteration of the line loop of `parse_ovpn_proto_port`. -/
def protoPortLine (acc : String × Nat) (raw : String) : String × Nat :=
  let line := strTrim raw
  if strStartsWith line "#" || strStartsWith line ";" || strIsEmpty line then acc
  else
    let acc1 :=
      if strStartsWith line "proto " then
        let p := strToLower ((splitWs line).getD 1 "udp")
        (if strContains p "tcp" then "tcp" else "udp", acc.2)
      else acc
    if strStartsWith line "remote " then
      match parseU16 ((splitWs line).getD 2 "") with
      | some v => (acc1.1, v)
      | none => acc1
    else acc1

/-- `parse_ovpn_proto_port` in `main.rs`: defaults `("udp", 1194)`, last
directive wins. -/
def parse_ovpn_proto_port (contents : String) : String × Nat :=
  (rustLines contents).foldl protoPortLine ("udp", 1194)

/-- The "seed remote ip best-effort" loop of `vpn_connect` / `killswitch_set`:
resolve the host of the first `remote` line (at its own port when parseable,
else the globally parsed port). -/
def seedRemoteFromLines (env : Env) (port : Nat) : List String → Option String
  | [] => none
  | raw :: rest =>
    let line := strTrim raw
    if strStartsWith line "remote " then
      match (splitWs line).get? 1 with
      | some host =>
        let p := (((splitWs line).get? 2).bind parseU16).getD port
        env.resolveIp host p
      | none => seedRemoteFromLines env port rest
    else seedRemoteFromLines env port rest

/-! ## Linux kill switch (`main.rs`): external firewall invocations -/

/-- One invocation of an external firewall binary: `(binary, arguments)`,
exactly the argument vectors passed to `linux_run_cmd`. -/
abbrev FwCall := String × List String

def deleteTableCmd : List String := ["delete", "table", "inet", "stellarkillswitch"]

def addTableCmd : List String := ["add", "table", "inet", "stellarkillswitch"]

def addChainCmd : List String :=
  ["add", "chain", "inet", "stellarkillswitch", "output", "\x7b", "type", "filter",
   "hook", "output", "priority", "0;", "policy", "drop;", "\x7d"]

def allowLoCmd : List String :=
  ["add", "rule", "inet", "stellarkillswitch", "output", "oif", "lo", "accept"]

def allowEstCmd : List String :=
  ["add", "rule", "inet", "stellarkillswitch", "output", "ct", "state",
   "established,related", "accept"]

def allowTunCmd : List String :=
  ["add", "rule", "inet", "stellarkillswitch", "output", "oifname", TUN_IFNAME, "accept"]

def dnsUdpCmd (ns : String) : List String :=
  ["add", "rule", "inet", "stellarkillswitch", "output", "ip", "daddr", ns,
   "udp", "dport", "53", "accept"]

def dnsTcpCmd (ns : String) : List String :=
  ["add", "rule", "inet", "stellarkillswitch", "output", "ip", "daddr", ns,
   "tcp", "dport", "53", "accept"]

def remoteIpCmd (ip p port_s : String) : List String :=
  ["add", "rule", "inet", "stellarkillswitch", "output", "ip", "daddr", ip,
   p, "dport", port_s, "accept"]

def anyRemoteCmd (p port_s : String) : List String :=
  ["add", "rule", "inet", "stellarkillswitch", "output", p, "dport", port_s, "accept"]

/-- `linux_killswitch_disable` in `main.rs`: the external calls it issues
(`nft` path deletes the table; otherwise best-effort iptables cleanup).  The
function itself always returns `Ok`. -/
def linux_killswitch_disable_calls (nft : Bool) : List FwCall :=
  if nft then [("nft", deleteTableCmd)]
  else
    [("iptables", ["-D", "OUTPUT", "-j", "STELLAR_KILLSWITCH"]),
     ("iptables", ["-F", "STELLAR_KILLSWITCH"]),
     ("iptables", ["-X", "STELLAR_KILLSWITCH"]),
     ("ip6tables", ["-D", "OUTPUT", "-j", "STELLAR_KILLSWITCH"]),
     ("ip6tables", ["-F", "STELLAR_KILLSWITCH"]),
     ("ip6tables", ["-X", "STELLAR_KILLSWITCH"])]

/-- `linux_killswitch_apply_nft` in `main.rs`, as the sequence of `nft`
argument vectors it issues (it first calls `linux_killswitch_disable`, then
rebuilds the dedicated table from scratch ending in a drop-policy chain). -/
def linux_killswitch_apply_nft_cmds (nameservers : List String) (proto : String)
    (port : Nat) (remote_ip : Option String) (allow_any_remote : Bool) :
    List (List String) :=
  let port_s := toString port
  let p := strToLower proto
  [deleteTableCmd, addTableCmd, addChainCmd, allowLoCmd, allowEstCmd, allowTunCmd]
    ++ nameservers.flatMap (fun ns => [dnsUdpCmd ns, dnsTcpCmd ns])
    ++ (match remote_ip with
        | some ip => [remoteIpCmd ip p port_s]
        | none => if allow_any_remote then [anyRemoteCmd p port_s] else [])

/-- `linux_killswitch_apply_iptables` in `main.rs`, as the external calls it
issues. -/
def linux_killswitch_apply_iptables_calls (nameservers : List String)
    (proto : String) (port : Nat) (remote_ip : Option String)
    (allow_any_remote : Bool) : List FwCall :=
  let port_s := toString port
  let p := strToLower proto
  linux_killswitch_disable_calls false
    ++ [("iptables", ["-N", "STELLAR_KILLSWITCH"]),
        ("iptables", ["-I", "OUTPUT", "1", "-j", "STELLAR_KILLSWITCH"]),
        ("iptables", ["-A", "STELLAR_KILLSWITCH", "-o", "lo", "-j", "ACCEPT"]),
        ("iptables", ["-A", "STELLAR_KILLSWITCH", "-m", "conntrack", "--ctstate",
                      "ESTABLISHED,RELATED", "-j", "ACCEPT"]),
        ("iptables", ["-A", "STELLAR_KILLSWITCH", "-o", TUN_IFNAME, "-j", "ACCEPT"])]
    ++ nameservers.flatMap (fun ns =>
        [("iptables", ["-A", "STELLAR_KILLSWITCH", "-p", "udp", "-d", ns,
                       "--dport", "53", "-j", "ACCEPT"]),
         ("iptables", ["-A", "STELLAR_KILLSWITCH", "-p", "tcp", "-d", ns,
                       "--dport", "53", "-j", "ACCEPT"])])
    ++ (match remote_ip with
        | some ip => [("iptables", ["-A", "STELLAR_KILLSWITCH", "-p", p, "-d", ip,
                                    "--dport", port_s, "-j", "ACCEPT"])]
        | none =>
          if allow_any_remote then
            [("iptables", ["-A", "STELLAR_KILLSWITCH", "-p", p, "--dport", port_s,
                           "-j", "ACCEPT"])]
          else [])
    ++ [("iptables", ["-A", "STELLAR_KILLSWITCH", "-j", "DROP"])]

/-- `linux_killswitch_apply` in `main.rs`: requires root, remembers the last
`(proto, port, remote_ip)` in the shared state, then applies via `nft` when
available and iptables otherwise.  Returns the updated state and the external
calls issued. -/
def killswitch_remember (s : VpnSt) (proto : String) (port : Nat)
    (remote_ip : Option String) : VpnSt :=
  { s with
    last_proto := proto
    last_port := port
    last_remote_ip := match remote_ip with
                      | some ip => some ip
                      | none => s.last_remote_ip }

def linux_killswitch_apply (env : Env) (s : VpnSt) (proto : String) (port : Nat)
    (remote_ip : Option String) (allow_any_remote : Bool) :
    Except String (VpnSt × List FwCall) :=
  if !env.isRoot then
    .error "Kill switch on Linux requires root (sudo) until we ship a privileged helper."
  else if env.nftExists then
    .ok (killswitch_remember s proto port remote_ip,
         (linux_killswitch_apply_nft_cmds env.nameservers proto port remote_ip
            allow_any_remote).map (fun a => ("nft", a)))
  else
    .ok (killswitch_remember s proto port remote_ip,
         linux_killswitch_apply_iptables_calls env.nameservers proto port
           remote_ip allow_any_remote)

instance {ε α : Type} [DecidableEq ε] [DecidableEq α] : DecidableEq (Except ε α) :=
  fun x y =>
    match x, y with
    | .ok a, .ok b =>
      if h : a = b then .isTrue (by rw [h])
      else .isFalse (fun hc => h (Except.ok.inj hc))
    | .error a, .error b =>
      if h : a = b then .isTrue (by rw [h])
      else .isFalse (fun hc => h (Except.error.inj hc))
    | .ok _, .error _ => .isFalse (fun hc => Except.noConfusion hc)
    | .error _, .ok _ => .isFalse (fun hc => Except.noConfusion hc)

/-! ## `vpn_disconnect` -/

/-- Result of one `vpn_disconnect` invocation: the command result, the state
left behind, and the external firewall calls issued. -/
structure DiscOut where
  result : Except String Unit
  state : VpnSt
  fwCalls : List FwCall
deriving DecidableEq, Repr

/-- `vpn_disconnect` in `main.rs`: bump the session id (stopping background
tasks), drop the child/pid/artifacts, set status `"disconnected"`, then — if
the kill switch is enabled — re-apply the full ruleset (allow-any for the
handshake when no remote ip was learned); only when it is disabled is the
dedicated table deleted. -/
def vpn_disconnect (env : Env) (s : VpnSt) : DiscOut :=
  let s1 : VpnSt :=
    { s with
      session_id := satAdd64 s.session_id
      process := none
      auth_path := none
      pid_path := none
      pid := none
      status := "disconnected"
      log_path := none
      status_path := none }
  if s.killswitch_enabled then
    match linux_killswitch_apply env s1 s.last_proto s.last_port s.last_remote_ip
        s.last_remote_ip.isNone with
    | .ok (s2, calls) => ⟨.ok (), s2, calls⟩
    | .error e => ⟨.error e, s1, []⟩
  else
    ⟨.ok (), s1, linux_killswitch_disable_calls env.nftExists⟩

/-! ## `vpn_connect` -/

/-- Result of one `vpn_connect` invocation.  `requested` records the URL
passed to `download_config_to_app_data` when the config source was an
http(s) URL; `spawned` whether an OpenVPN child process was started. -/
structure ConnOut where
  result : Except String Unit
  state : VpnSt
  fwCalls : List FwCall
  requested : Option String
  spawned : Bool
deriving DecidableEq, Repr

/-- The part of `vpn_connect` after the config source has been resolved to a
path (`bodyOpt` is the freshly downloaded body when the source was a URL, in
which case the file certainly exists). -/
def vpn_connect_after_resolve (env : Env) (s1 : VpnSt) (path : String)
    (bodyOpt : Option String) (req : Option String)
    (username password : Option String) : ConnOut :=
  let pathExists := match bodyOpt with
                    | some _ => true
                    | none => env.fileExists path
  if !pathExists then
    ⟨.error ("Config file does not exist: " ++ path),
     { s1 with status := "disconnected" }, [], req, false⟩
  else
    match env.openvpnLocated with
    | none => ⟨.error "OpenVPN binary not found", s1, [], req, false⟩
    | some _ =>
      let cfg_contents := match bodyOpt with
                          | some b => b
                          | none => env.readFile path
      let pp := parse_ovpn_proto_port cfg_contents
      let proto := pp.1
      let port := pp.2
      let seeded := seedRemoteFromLines env port (rustLines cfg_contents)
      let authRes : Except String (Option String) :=
        match username, password with
        | some u, some p =>
          if !strIsEmpty (strTrim u) && !strIsEmpty (strTrim p) then
            match env.authFile with
            | .error e => .error e
            | .ok ap => .ok (some ap)
          else .ok none
        | _, _ => .ok none
      match authRes with
      | .error e => ⟨.error e, s1, [], req, false⟩
      | .ok authPath =>
        match env.runtimeFiles with
        | .error e => ⟨.error e, s1, [], req, false⟩
        | .ok (lp, sp, pidp) =>
          let ksRes : Except String (VpnSt × List FwCall) :=
            if s1.killswitch_enabled then
              linux_killswitch_apply env s1 proto port seeded seeded.isNone
            else .ok (s1, [])
          match ksRes with
          | .error e => ⟨.error e, s1, [], req, false⟩
          | .ok (s2, calls) =>
            match env.spawn with
            | .error e => ⟨.error ("Failed to start OpenVPN: " ++ e), s2, calls, req, false⟩
            | .ok child =>
              let s3 : VpnSt :=
                { s2 with
                  process := some child
                  auth_path := authPath
                  log_path := some lp
                  status_path := some sp
                  pid_path := some pidp
                  pid := env.pidFileRead
                  last_proto := proto
                  last_port := port
                  last_remote_ip := seeded }
              ⟨.ok (), s3, calls, req, true⟩

/-- The config-resolution step of `vpn_connect`: URL sources are downloaded
(a failure propagates with `?`, resetting nothing), local paths are used
as-is; then the post-resolution phase runs. -/
def vpn_connect_resolve_dispatch (env : Env) (s1 : VpnSt) (cfg_in : String)
    (username password : Option String) : ConnOut :=
  if is_http_url cfg_in then
    match download_config_to_app_data env cfg_in with
    | .error e => ⟨.error e, s1, [], some cfg_in, false⟩
    | .ok (path, body) =>
      vpn_connect_after_resolve env s1 path (some body) (some cfg_in)
        username password
  else
    vpn_connect_after_resolve env s1 cfg_in none none username password

/-- `vpn_connect` in `main.rs`: fail fast when a child is supervised or a
recovered pid is still alive; otherwise open a new session (`session_id + 1`),
set status `"connecting"`, substitute `DEFAULT_OVPN_URL` for a blank config
source, download URL sources, and hand over to the post-resolution phase.
Note: a download failure propagates with `?` *without* resetting the status,
exactly as in the source. -/
def vpn_connect (env : Env) (s : VpnSt) (config_path : String)
    (username password : Option String) : ConnOut :=
  if s.process.isSome then ⟨.error "VPN already running", s, [], none, false⟩
  else if (match s.pid with
           | some pid => env.pidAlive pid
           | none => false) then
    ⟨.error "VPN already running (recovered pid)", s, [], none, false⟩
  else
    let s1 : VpnSt :=
      { s with
        session_id := satAdd64 s.session_id
        status := "connecting"
        auth_path := none
        log_path := none
        status_path := none
        pid_path := none
        pid := none
        connect_started_at_ms := env.nowMs
        last_log_at_ms := env.nowMs
        last_log_pos := 0 }
    let cfg_in := if strIsEmpty (strTrim config_path) then DEFAULT_OVPN_URL else config_path
    vpn_connect_resolve_dispatch env s1 cfg_in username password

/-! ## `killswitch_set` -/

/-- Result of one `killswitch_set` invocation. -/
structure KsSetOut where
  result : Except String Unit
  state : VpnSt
  fwCalls : List FwCall
deriving DecidableEq, Repr

/-- `killswitch_set` in `main.rs`: persist the flag; disabling deletes the
dedicated table, enabling parses the config (when given and existing, else
remembered values) and applies the baseline ruleset (allow-any handshake when
no remote ip could be seeded). -/
def killswitch_set (env : Env) (s : VpnSt) (enabled : Bool)
    (config_path : Option String) : KsSetOut :=
  let s1 : VpnSt := { s with killswitch_enabled := enabled }
  if !enabled then
    ⟨.ok (), s1, linux_killswitch_disable_calls env.nftExists⟩
  else
    let info : Except String (String × Nat × Option String) :=
      match config_path with
      | some cp =>
        let res : Except String (String × Option String) :=
          if is_http_url cp then
            match download_config_to_app_data env cp with
            | .error e => .error e
            | .ok (path, body) => .ok (path, some body)
          else .ok (cp, none)
        match res with
        | .error e => .error e
        | .ok (path, bodyOpt) =>
          let ex := match bodyOpt with
                    | some _ => true
                    | none => env.fileExists path
          if ex then
            let contents := match bodyOpt with
                            | some b => b
                            | none => env.readFile path
            let pr := parse_ovpn_proto_port contents
            .ok (pr.1, pr.2, seedRemoteFromLines env pr.2 (rustLines contents))
          else .ok ("udp", 1194, none)
      | none => .ok (s.last_proto, s.last_port, s.last_remote_ip)
    match info with
    | .error e => ⟨.error e, s1, []⟩
    | .ok (proto, port, seeded) =>
      match linux_killswitch_apply env s1 proto port seeded seeded.isNone with
      | .ok (s2, calls) => ⟨.ok (), s2, calls⟩
      | .error e => ⟨.error e, s1, []⟩

/-! ## Watchdog abort, log tailer, child watcher, crash recovery -/

/-- `watchdog_abort_connect` in `main.rs` (state and firewall effect): bump
the session id, drop child/pid/artifacts, set status `"disconnected"`, and —
while the kill switch is enabled — keep it active by re-applying the ruleset
(result ignored, `let _ =` in the source). -/
def watchdog_abort_connect (env : Env) (s : VpnSt) : VpnSt × List FwCall :=
  let s1 : VpnSt :=
    { s with
      session_id := satAdd64 s.session_id
      process := none
      auth_path := none
      pid_path := none
      pid := none
      status := "disconnected" }
  if s.killswitch_enabled then
    match linux_killswitch_apply env s1 s.last_proto s.last_port s.last_remote_ip
        s.last_remote_ip.isNone with
    | .ok (s2, calls) => (s2, calls)
    | .error _ => (s1, [])
  else (s1, [])

/-- `extract_remote_ip_from_log_line` in `main.rs`: text after the first `]`,
split on `:` into ip and port. -/
def extract_remote_ip_from_log_line (line : String) : Option (String × Nat) :=
  match strSplitOn line "]" with
  | [] => none
  | [_] => none
  | _ :: restParts =>
    let rest := strTrim (strIntercalate "]" restParts)
    match strSplitOn rest ":" with
    | [] => none
    | [_] => none
    | ipStr :: portStr :: _ =>
      let ip := strTrim ipStr
      match parseU16 (strTrim portStr) with
      | none => none
      | some port => if strIsEmpty ip then none else some (ip, port)

/-- The "learn remote ip and tighten kill switch once" branch of the
`start_log_file_tailer` loop (run while the task-local `tightened` flag is
still false; once true the branch is skipped, which touches no status
field). -/
def tailer_tighten (env : Env) (line : String) (s : VpnSt) : VpnSt :=
  if strContains line "UDP link remote:" ||
     strContains line "Preserving recently used remote address:" ||
     strContains line "TCP/UDP: Preserving recently used remote address:" then
    match extract_remote_ip_from_log_line line with
    | some (ip, port) =>
      let s' := { s with last_remote_ip := some ip, last_port := port }
      if s.killswitch_enabled then
        match linux_killswitch_apply env s' s'.last_proto port (some ip) false with
        | .ok (s'', _) => s''
        | .error _ => s'
      else s'
    | none => s
  else s

/-- The "Initialization Sequence Completed" branch of the tailer loop:
promote to `"connected"` and re-apply the kill switch while enabled. -/
def tailer_promote (env : Env) (line : String) (s1 : VpnSt) : VpnSt :=
  if strContains line "Initialization Sequence Completed" then
    let s2a := { s1 with status := "connected" }
    if s2a.killswitch_enabled then
      match linux_killswitch_apply env s2a s2a.last_proto s2a.last_port
          s2a.last_remote_ip false with
      | .ok (s'', _) => s''
      | .error _ => s2a
    else s2a
  else s1

/-- One line of the `start_log_file_tailer` loop: guard on the session id,
learn/tighten the remote ip, promote to `"connected"` on the completion
marker, force `"disconnected"` on `AUTH_FAILED`. -/
def tailer_process_line (env : Env) (sid : Nat) (line : String) (s : VpnSt) : VpnSt :=
  if s.session_id != sid then s
  else
    let s2 := tailer_promote env line (tailer_tighten env line s)
    if strContains line "AUTH_FAILED" then { s2 with status := "disconnected" }
    else s2

/-- One poll of the child-exit watcher thread in `vpn_connect`: `outcome` is
the `try_wait` result (`.ok true` = exited, `.ok false` = still running,
`.error e` = wait error).  Note the error arm records `"error: " ++ e` as
the status. -/
def watcher_step (sid : Nat) (outcome : Except String Bool) (s : VpnSt) : VpnSt :=
  if s.session_id != sid then s
  else
    match s.process with
    | none => s
    | some _ =>
      match outcome with
      | .ok true => { s with process := none, pid := none, status := "disconnected" }
      | .ok false => s
      | .error e => { s with process := none, pid := none, status := "error: " ++ e }

/-- `SessionFile` in `main.rs`: the crash-recovery record. -/
structure SessionFile where
  pid : Nat
  log_path : String
  status_path : String
  pid_path : String
  last_proto : String
  last_port : Nat
  last_remote_ip : Option String
  killswitch_enabled : Bool
  crash_recovery_enabled : Bool
deriving DecidableEq, Repr

/-- `recover_on_startup` in `main.rs` (state effect): adopt a live recorded
pid into a fresh session at status `"connecting"`; discard stale records. -/
def recover_on_startup (env : Env) (sf : SessionFile) (s : VpnSt) : VpnSt :=
  if !sf.crash_recovery_enabled then s
  else if !env.pidAlive sf.pid then s
  else
    { s with
      process := none
      pid := some sf.pid
      log_path := some sf.log_path
      status_path := some sf.status_path
      pid_path := some sf.pid_path
      status := "connecting"
      killswitch_enabled := sf.killswitch_enabled
      crash_recovery_enabled := sf.crash_recovery_enabled
      last_proto := sf.last_proto
      last_port := sf.last_port
      last_remote_ip := sf.last_remote_ip
      session_id := satAdd64 s.session_id
      connect_started_at_ms := env.nowMs
      last_log_at_ms := env.nowMs
      last_log_pos := 0 }

/-! ## The supervisor as a transition system -/

/-- The events that drive supervisor state transitions: the three public
commands, the kill-switch toggle, and the background tasks (log tailer,
connect watchdog, child-exit watcher, crash recovery), each carrying the
session id it was spawned for. -/
inductive Ev where
  | connectCall (env : Env) (cfg : String) (username password : Option String)
  | disconnectCall (env : Env)
  | killswitchSet (env : Env) (enabled : Bool) (cfg : Option String)
  | tailerLine (env : Env) (sid : Nat) (line : String)
  | watchdogPoll (env : Env) (sid : Nat) (deadlinePassed idleExceeded : Bool)
  | watcherPoll (sid : Nat) (outcome : Except String Bool)
  | recover (env : Env) (sf : SessionFile)

/-- One supervisor transition. -/
def vpnStep (s : VpnSt) : Ev → VpnSt
  | .connectCall env cfg u p => (vpn_connect env s cfg u p).state
  | .disconnectCall env => (vpn_disconnect env s).state
  | .killswitchSet env en cfg => (killswitch_set env s en cfg).state
  | .tailerLine env sid line => tailer_process_line env sid line s
  | .watchdogPoll env sid dl idle =>
    if s.session_id == sid && s.status == "connecting" && dl && idle then
      (watchdog_abort_connect env s).1
    else s
  | .watcherPoll sid outcome => watcher_step sid outcome s
  | .recover env sf => recover_on_startup env sf s

/-- Run the supervisor from a state through a sequence of events. -/
def vpnRun (s : VpnSt) (evs : List Ev) : VpnSt := evs.foldl vpnStep s

/-- The status strings the supervisor actually produces: the three documented
values plus the `"error: ..."` strings of `VpnInner::status`'s comment. -/
def validStatus (st : String) : Bool :=
  st == "disconnected" || st == "connecting" || st == "connected" ||
  strStartsWith st "error: "

/-! ## Linux privileged helper (`src-tauri/bin/stellar-vpn-helper.rs`) -/

/-- `std::net::IpAddr`, carrying its display string. -/
inductive IpAddr where
  | v4 (a : String)
  | v6 (a : String)
deriving DecidableEq, Repr

/-- The network facilities the helper consumes: `IpAddr::from_str` (used by
`is_ip_literal` and the literal match) and `resolve_host`
(`ToSocketAddrs`-based, empty list on resolution failure). -/
structure NetEnv where
  parseIp : String → Option IpAddr
  resolve : String → Nat → List IpAddr

/-- `is_ip_literal` in the helper. -/
def is_ip_literal (env : NetEnv) (host : String) : Bool :=
  (env.parseIp host).isSome

/-- `parse_openvpn_remotes` in the helper: first pass finds the (last) global
`proto` directive, second pass collects `(host, port, proto)` remotes with
port defaulting to 1194. -/
def parse_openvpn_remotes (config_text : String) : List (String × Nat × String) :=
  let proto :=
    (rustLines config_text).foldl
      (fun pr raw =>
        let l := strTrim raw
        if strIsEmpty l || strStartsWith l "#" || strStartsWith l ";" then pr
        else if strStartsWith l "proto " then
          let parts := splitWs l
          if parts.length ≥ 2 then strToLower (parts.getD 1 "") else pr
        else pr)
      "udp"
  (rustLines config_text).foldl
    (fun acc raw =>
      let l := strTrim raw
      if strIsEmpty l || strStartsWith l "#" || strStartsWith l ";" then acc
      else if strStartsWith l "remote " then
        let parts := splitWs l
        if parts.length ≥ 2 then
          let host := parts.getD 1 ""
          let port := if parts.length ≥ 3 then (parseU16 (parts.getD 2 "")).getD 1194
                      else 1194
          acc ++ [(host, port, proto)]
        else acc
      else acc)
    []

/-- The fixed header of `build_script`: fresh table, accept-policy chain,
flush, loopback/established/tunnel-interface/DNS allowances. -/
def ksHeaderLines : List String :=
  ["add table inet stellarkillswitch\n",
   "add chain inet stellarkillswitch output \x7b type filter hook output priority 0; policy accept; \x7d\n",
   "flush chain inet stellarkillswitch output\n",
   "add rule inet stellarkillswitch output oifname \"lo\" accept\n",
   "add rule inet stellarkillswitch output ct state established,related accept\n",
   "add rule inet stellarkillswitch output oifname \x7b \"tun\", \"tun0\", \"tun1\", \"tun2\", \"tun3\", \"tun4\", \"tun5\", \"tun6\", \"tun7\", \"tun8\", \"tun9\", \"tap0\", \"tap1\", \"tap2\", \"tap3\", \"tap4\", \"tap5\", \"tap6\", \"tap7\", \"tap8\", \"tap9\" \x7d accept\n",
   "add rule inet stellarkillswitch output udp dport 53 accept\n",
   "add rule inet stellarkillswitch output tcp dport 53 accept\n"]

/-- The per-address allow rule of `build_script` (ip/ip6 × tcp/udp). -/
def ipRuleLine (ip : IpAddr) (tcp : Bool) (port : Nat) : String :=
  match ip, tcp with
  | .v4 a, true =>
    s!"add rule inet stellarkillswitch output ip daddr {a} tcp dport {port} accept\n"
  | .v4 a, false =>
    s!"add rule inet stellarkillswitch output ip daddr {a} udp dport {port} accept\n"
  | .v6 a, true =>
    s!"add rule inet stellarkillswitch output ip6 daddr {a} tcp dport {port} accept\n"
  | .v6 a, false =>
    s!"add rule inet stellarkillswitch output ip6 daddr {a} udp dport {port} accept\n"

/-- The zero-resolution fallback rule of `build_script`: allow the remote's
port/transport to any destination. -/
def fallbackLine (tcp : Bool) (port : Nat) : String :=
  if tcp then s!"add rule inet stellarkillswitch output tcp dport {port} accept\n"
  else s!"add rule inet stellarkillswitch output udp dport {port} accept\n"

def dropLine : String := "add rule inet stellarkillswitch output drop\n"

/-- The remote loop of `build_script`: for each `(host, port, proto)` emit the
literal-address rule, the per-resolved-address rules, or the any-destination
fallback when resolution yields nothing; every branch sets `any_allow`. -/
def buildRemoteLines (env : NetEnv) : List (String × Nat × String) → List String × Bool
  | [] => ([], false)
  | (host, port, proto) :: rest =>
    let tcp := strContains proto "tcp"
    let this :=
      match env.parseIp host with
      | some ip => [ipRuleLine ip tcp port]
      | none =>
        let ips := env.resolve host port
        if ips.isEmpty then [fallbackLine tcp port]
        else ips.map (fun ip => ipRuleLine ip tcp port)
    let restR := buildRemoteLines env rest
    (this ++ restR.1, true)

/-- `build_script` in the helper, as the list of script lines (each
`push_str` in the source appends exactly one line). -/
def build_script (env : NetEnv) (remotes : List (String × Nat × String)) :
    Except String (List String) :=
  let rb := buildRemoteLines env remotes
  if !rb.2 then .error "No VPN remotes could be allowed. Invalid config?"
  else .ok (ksHeaderLines ++ rb.1 ++ [dropLine])

/-! ### The `nft` engine (external collaborator)

`FwTable` is the dedicated table: `none` when absent, `some rules` when
present.  Deleting an absent table fails with the engine's
"No such file or directory" message. -/

abbrev FwTable := Option (List String)

/-- Modelled from the spec: the external firewall engine's `delete table`
behaviour — removes the table when present; reports an error mentioning
"No such file or directory" when it is absent. -/
def nftEngineDeleteTable : FwTable → FwTable × Bool × String
  | some _ => (none, true, "")
  | none => (none, false, "Error: Could not process command: No such file or directory")

/-- `nft_delete_table_strict` in the helper: delete the dedicated table,
treating a "does not exist" / "No such file" stderr as success. -/
def nft_delete_table_strict (tbl : FwTable) : FwTable × Except String Unit :=
  match nftEngineDeleteTable tbl with
  | (t2, true, _) => (t2, .ok ())
  | (t2, false, err) =>
    if strContains err "No such file" || strContains err "does not exist" then
      (t2, .ok ())
    else
      (t2, .error ("Failed to delete kill switch table (exit=1):\n" ++ err))

/-- Modelled from the spec: executing one line of a helper script in the
external firewall engine — `add table` creates the table when absent, `flush
chain` drops the chain's rules, any other statement requires the table and is
appended. -/
def helperLineExec (tbl : FwTable) (line : String) : FwTable :=
  if line == "add table inet stellarkillswitch\n" then some (tbl.getD [])
  else
    match tbl with
    | none => none
    | some rs =>
      if strStartsWith line "flush chain" then
        some (rs.filter fun r => !(strStartsWith r "add rule"))
      else some (rs ++ [line])

/-- `run_nft_script` in the helper: feed the script to `nft -f -`. -/
def run_nft_script (tbl : FwTable) (lines : List String) : FwTable :=
  lines.foldl helperLineExec tbl

/-- The two sub-commands of `stellar-vpn-helper killswitch`. -/
inductive HelperOp where
  | enable (cfg_text : String)
  | disable

/-- One `stellar-vpn-helper killswitch` invocation (`main`'s match on the
action): `disable` is the strict delete; `enable` parses remotes, deletes the
old table strictly, builds the script and applies it. -/
def helper_killswitch_step (env : NetEnv) (tbl : FwTable) :
    HelperOp → FwTable × Except String Unit
  | .disable => nft_delete_table_strict tbl
  | .enable cfg =>
    let remotes := parse_openvpn_remotes cfg
    if remotes.isEmpty then (tbl, .error "No 'remote' entries found in config")
    else
      match nft_delete_table_strict tbl with
      | (t2, .error e) => (t2, .error e)
      | (t2, .ok _) =>
        match build_script env remotes with
        | .error e => (t2, .error e)
        | .ok lines => (run_nft_script t2 lines, .ok ())

/-- A sequence of helper invocations; carries the firewall table and the
result of the most recent invocation. -/
def helper_killswitch_run (env : NetEnv) (st : FwTable × Except String Unit) :
    List HelperOp → FwTable × Except String Unit
  | [] => st
  | op :: rest => helper_killswitch_run env (helper_killswitch_step env st.1 op) rest

/-! ### The `nft` engine on the supervisor's one-statement-per-invocation
calls (`linux_killswitch_apply_nft`) -/

abbrev NftState := Option (List (List String))

/-- Modelled from the spec: the external firewall engine executing one
supervisor `nft` invocation — `delete table` removes the dedicated table,
`add table` creates it when absent, other statements require it and are
appended. -/
def nftExec (tbl : NftState) (cmd : List String) : NftState :=
  match cmd with
  | "delete" :: "table" :: _ => none
  | "add" :: "table" :: _ => some (tbl.getD [])
  | _ =>
    match tbl with
    | none => none
    | some rs => some (rs ++ [cmd])

/-- Run a sequence of supervisor `nft` invocations against the engine. -/
def nftRunCmds (tbl : NftState) (cmds : List (List String)) : NftState :=
  cmds.foldl nftExec tbl

/-! ## The connect watchdog loop (`start_connect_watchdog`)

Time is in milliseconds.  `lastLog` gives, for each instant, the value of
`last_log_at_ms` the loop would read then (maintained by the log tailer).
The loop below models the thread body for a session that stays current with
status `"connecting"` (the claim's premise: the subprocess never emits the
completion marker and nobody disconnects); each iteration sleeps 250 ms,
then either keeps waiting (deadline not reached, or fresh log bytes within
the grace period) or fires `watchdog_abort_connect` and returns the instant
at which it fired. -/

def start_connect_watchdog_loop (lastLog : Nat → Nat) (deadline : Nat) :
    Nat → Nat → Option Nat
  | _, 0 => none
  | t, fuel + 1 =>
    let t2 := t + 250
    if t2 < deadline then start_connect_watchdog_loop lastLog deadline t2 fuel
    else if CONNECT_STUCK_IDLE_GRACE_MS ≤ t2 - lastLog t2 then some t2
    else start_connect_watchdog_loop lastLog deadline t2 fuel

/-- The watchdog armed at `start`: deadline `start + CONNECT_STUCK_SECS
seconds`, polled for `fuel` iterations. -/
def connect_watchdog_fire (lastLog : Nat → Nat) (start fuel : Nat) : Option Nat :=
  start_connect_watchdog_loop lastLog (start + CONNECT_STUCK_SECS * 1000) start fuel

/-! ## macOS privileged helper (`src-tauri/bin/stellar-vpn-helper-macos.rs`) -/

/-- `enum St` of the macOS helper. -/
inductive St where
  | disconnected
  | connecting
  | connected
deriving DecidableEq, Repr

/-- `St::as_str`. -/
def St.asStr : St → String
  | .disconnected => "disconnected"
  | .connecting => "connecting"
  | .connected => "connected"

/-- `enum Event` of the macOS helper (`Log { line }` / `Status { status }`). -/
inductive HelperEvent where
  | log (line : String)
  | statusEv (status : String)
deriving DecidableEq, Repr

/-- `serde_json` string escaping for the characters that require a two-byte
escape (the events carry log text and status names). -/
def jsonEscapeChar (c : Char) : String :=
  if c = '"' then "\\\"" else if c = '\\' then "\\\\" else String.singleton c

def jsonString (s : String) : String :=
  "\"" ++ String.join (s.data.map jsonEscapeChar) ++ "\""

/-- The serde wire format of `enum Event` under
`#[serde(tag = "type", rename_all = "lowercase")]`: the variant name becomes
the `type` field and each struct field keeps its own name — so a status event
carries its value under the key `"status"`. -/
def eventToJson : HelperEvent → String
  | .log line => "\x7b\"type\":\"log\",\"line\":" ++ jsonString line ++ "\x7d"
  | .statusEv st => "\x7b\"type\":\"status\",\"status\":" ++ jsonString st ++ "\x7d"

/-- What one `broadcast::Receiver::recv()` call of the subscribe loop can
yield: a published message, or a `Lagged(n)` error after the bounded buffer
overflowed (n missed messages skipped). The end of the list models the
channel closing. -/
inductive RecvItem where
  | msg (s : String)
  | lagged (n : Nat)
deriving DecidableEq, Repr

/-- The message carried by a receive outcome, if any (lagging skips). -/
def recvMsgOf : RecvItem → Option String
  | .msg m => some m
  | .lagged _ => none

/-- The streaming loop of `handle_conn`'s `Req::Subscribe` arm: forward every
received message, `continue` on `Lagged`, stop when the channel closes. -/
def subscribeLoop : List RecvItem → List String
  | [] => []
  | .msg m :: rest => m :: subscribeLoop rest
  | .lagged _ :: rest => subscribeLoop rest

/-- `handle_conn` on `Req::Subscribe`: immediately write the current status
as an event, then stream the broadcast. Returns the lines written to the
connection. -/
def handle_subscribe (cur : St) (stream : List RecvItem) : List String :=
  eventToJson (.statusEv cur.asStr) :: subscribeLoop stream


/-! ## Shared lemmas -/

/-- A successful `linux_killswitch_apply` only updates the remembered
`(proto, port, remote_ip)` triple of the state. -/
theorem linux_killswitch_apply_ok_state (env : Env) (s : VpnSt) (proto : String)
    (port : Nat) (rip : Option String) (anyR : Bool) (s2 : VpnSt) (calls : List FwCall)
    (h : linux_killswitch_apply env s proto port rip anyR = .ok (s2, calls)) :
    s2 = killswitch_remember s proto port rip := by
  unfold linux_killswitch_apply at h
  split at h
  · exact absurd h (by simp)
  · split at h <;>
    · injection h with h'
      exact (congrArg Prod.fst h').symm

/-! ## C5: double connect is rejected without touching the session -/

/-- C5: when a supervised subprocess exists, or a recovered pid is still
alive, `vpn_connect` returns an error immediately and the state (status,
session id, subprocess, artifacts) is returned unchanged. -/
theorem second_connect_rejected_state_unchanged (env : Env) (s : VpnSt)
    (cfg : String) (u p : Option String) :
    (s.process.isSome = true →
      vpn_connect env s cfg u p = ⟨.error "VPN already running", s, [], none, false⟩) ∧
    (∀ q, s.process = none → s.pid = some q → env.pidAlive q = true →
      vpn_connect env s cfg u p =
        ⟨.error "VPN already running (recovered pid)", s, [], none, false⟩) := by
  constructor
  · intro h
    simp only [vpn_connect, h, if_true]
  · intro q h1 h2 h3
    simp only [vpn_connect, h1, h2, h3, Option.isSome_none, Bool.false_eq_true, if_false,
      if_true]

/-- Witness for C5 at a concrete state with a supervised subprocess. -/
def c5State : VpnSt := { initVpnSt with process := some 7, status := "connected", session_id := 3 }

def c5Env : Env :=
  { http := fun _ => none
    fileExists := fun _ => true
    readFile := fun _ => ""
    openvpnLocated := none
    pidAlive := fun _ => false
    resolveIp := fun _ _ => none
    nowMs := 0
    isRoot := false
    nftExists := true
    nameservers := []
    authFile := .error "auth"
    runtimeFiles := .error "rt"
    spawn := .error "sp"
    pidFileRead := none }

theorem second_connect_rejected_witness :
    c5State.process.isSome = true ∧
    vpn_connect c5Env c5State "conf.ovpn" none none =
      ⟨.error "VPN already running", c5State, [], none, false⟩ :=
  ⟨rfl, (second_connect_rejected_state_unchanged c5Env c5State "conf.ovpn" none none).1 rfl⟩

/-! ## C10: a blank config source silently falls back to the default URL -/

/-- C10: a connect whose config source trims to the empty string behaves
exactly like a connect given `DEFAULT_OVPN_URL` (the bundled Switzerland
profile URL), which is an https URL and is therefore downloaded. -/
theorem empty_config_source_uses_default_url (env : Env) (s : VpnSt)
    (cfg : String) (u p : Option String) (h : strTrim cfg = "") :
    vpn_connect env s cfg u p = vpn_connect env s DEFAULT_OVPN_URL u p ∧
    is_http_url DEFAULT_OVPN_URL = true := by
  refine ⟨?_, by decide⟩
  have h1 : strIsEmpty (strTrim cfg) = true := by rw [h]; rfl
  have h2 : strIsEmpty (strTrim DEFAULT_OVPN_URL) = false := by decide
  simp only [vpn_connect, h1, h2, Bool.false_eq_true, if_true, if_false]

/-- Witness for C10: a whitespace-only config source. -/
theorem empty_config_source_witness :
    strTrim "   " = "" ∧
    vpn_connect c5Env initVpnSt "   " none none =
      vpn_connect c5Env initVpnSt DEFAULT_OVPN_URL none none :=
  ⟨by decide, (empty_config_source_uses_default_url c5Env initVpnSt "   " none none
      (by decide)).1⟩

/-! ## C2: disconnect keeps the kill switch armed -/

/-- C2: `vpn_disconnect` while the kill switch is enabled (on a root/nft
system) succeeds, leaves `killswitch_enabled` true, and re-applies the full
ruleset — table rebuild with drop-policy chain, loopback/established/tunnel
allowances, DNS to each resolver, and the remote-handshake allowance (the
learned remote ip when known, else the port/transport to any destination) —
instead of removing it; only an explicit `killswitch_set false` clears the
flag and merely deletes the dedicated table.  The watchdog abort path
behaves the same way: flag kept, ruleset re-applied. -/
theorem disconnect_keeps_killswitch_and_reapplies (env : Env) (s : VpnSt)
    (hks : s.killswitch_enabled = true) (hroot : env.isRoot = true)
    (hnft : env.nftExists = true) :
    (vpn_disconnect env s).result = .ok () ∧
    (vpn_disconnect env s).state.killswitch_enabled = true ∧
    (vpn_disconnect env s).fwCalls =
      (linux_killswitch_apply_nft_cmds env.nameservers s.last_proto s.last_port
        s.last_remote_ip s.last_remote_ip.isNone).map (fun a => ("nft", a)) ∧
    ("nft", addChainCmd) ∈ (vpn_disconnect env s).fwCalls ∧
    ("nft", allowLoCmd) ∈ (vpn_disconnect env s).fwCalls ∧
    (∀ ns ∈ env.nameservers,
      ("nft", dnsUdpCmd ns) ∈ (vpn_disconnect env s).fwCalls ∧
      ("nft", dnsTcpCmd ns) ∈ (vpn_disconnect env s).fwCalls) ∧
    (∀ ip, s.last_remote_ip = some ip →
      ("nft", remoteIpCmd ip (strToLower s.last_proto) (toString s.last_port)) ∈
        (vpn_disconnect env s).fwCalls) ∧
    (s.last_remote_ip = none →
      ("nft", anyRemoteCmd (strToLower s.last_proto) (toString s.last_port)) ∈
        (vpn_disconnect env s).fwCalls) ∧
    (killswitch_set env s false none).state.killswitch_enabled = false ∧
    (killswitch_set env s false none).fwCalls = [("nft", deleteTableCmd)] ∧
    (watchdog_abort_connect env s).1.killswitch_enabled = true ∧
    (watchdog_abort_connect env s).2 =
      (linux_killswitch_apply_nft_cmds env.nameservers s.last_proto s.last_port
        s.last_remote_ip s.last_remote_ip.isNone).map (fun a => ("nft", a)) := by
  have hcalls : (vpn_disconnect env s).fwCalls =
      (linux_killswitch_apply_nft_cmds env.nameservers s.last_proto s.last_port
        s.last_remote_ip s.last_remote_ip.isNone).map (fun a => ("nft", a)) := by
    simp only [vpn_disconnect, linux_killswitch_apply, hks, hroot, hnft, Bool.not_true,
      Bool.false_eq_true, if_false, if_true]
  refine ⟨?_, ?_, hcalls, ?_, ?_, ?_, ?_, ?_, ?_, ?_, ?_, ?_⟩
  · simp only [vpn_disconnect, linux_killswitch_apply, hks, hroot, hnft, Bool.not_true,
      Bool.false_eq_true, if_false, if_true]
  · simp only [vpn_disconnect, linux_killswitch_apply, hks, hroot, hnft, Bool.not_true,
      Bool.false_eq_true, if_false, if_true, killswitch_remember]
  · rw [hcalls]
    exact List.mem_map_of_mem _ (by simp [linux_killswitch_apply_nft_cmds])
  · rw [hcalls]
    exact List.mem_map_of_mem _ (by simp [linux_killswitch_apply_nft_cmds])
  · intro ns hns
    rw [hcalls]
    constructor
    · refine List.mem_map_of_mem _ ?_
      simp only [linux_killswitch_apply_nft_cmds, List.mem_append, List.mem_flatMap]
      exact Or.inl (Or.inr ⟨ns, hns, by simp⟩)
    · refine List.mem_map_of_mem _ ?_
      simp only [linux_killswitch_apply_nft_cmds, List.mem_append, List.mem_flatMap]
      exact Or.inl (Or.inr ⟨ns, hns, by simp⟩)
  · intro ip hip
    rw [hcalls]
    refine List.mem_map_of_mem _ ?_
    simp [linux_killswitch_apply_nft_cmds, hip]
  · intro hnone
    rw [hcalls]
    refine List.mem_map_of_mem _ ?_
    simp [linux_killswitch_apply_nft_cmds, hnone]
  · simp [killswitch_set]
  · simp [killswitch_set, linux_killswitch_disable_calls, hnft]
  · simp only [watchdog_abort_connect, linux_killswitch_apply, hks, hroot, hnft,
      Bool.not_true, Bool.false_eq_true, if_false, if_true, killswitch_remember]
  · simp only [watchdog_abort_connect, linux_killswitch_apply, hks, hroot, hnft,
      Bool.not_true, Bool.false_eq_true, if_false, if_true]

/-- Witness for C2 at a concrete enabled state. -/
def c2State : VpnSt :=
  { initVpnSt with
    killswitch_enabled := true
    last_proto := "udp"
    last_port := 1194
    last_remote_ip := some "203.0.113.7" }

def c2Env : Env := { c5Env with isRoot := true, nftExists := true, nameservers := ["9.9.9.9"] }

theorem disconnect_keeps_killswitch_witness :
    c2State.killswitch_enabled = true ∧ c2Env.isRoot = true ∧
    (vpn_disconnect c2Env c2State).state.killswitch_enabled = true ∧
    (vpn_disconnect c2Env c2State).result = .ok () :=
  ⟨rfl, rfl, (disconnect_keeps_killswitch_and_reapplies c2Env c2State rfl rfl rfl).2.1,
   (disconnect_keeps_killswitch_and_reapplies c2Env c2State rfl rfl rfl).1⟩

/-! ## C6: disable deletes the table; absent table counts as success -/

theorem helper_disable_step_absent (env : NetEnv) (tbl : FwTable) :
    helper_killswitch_step env tbl .disable = (none, .ok ()) := by
  cases tbl <;> rfl

/-- C6: for every sequence of helper kill-switch invocations that ends in
`disable`, the dedicated firewall table is absent afterwards and the final
`disable` reports success — in particular deleting an already-absent table
(the engine's "No such file or directory" report) is treated as success by
`nft_delete_table_strict`. -/
theorem killswitch_disable_strict_idempotent (env : NetEnv)
    (st : FwTable × Except String Unit) (ops : List HelperOp) :
    helper_killswitch_run env st (ops ++ [HelperOp.disable]) = (none, .ok ()) := by
  induction ops generalizing st with
  | nil =>
    simpa [helper_killswitch_run] using helper_disable_step_absent env st.1
  | cons op rest ih =>
    simpa only [List.cons_append, helper_killswitch_run] using
      ih (helper_killswitch_step env st.1 op)

/-! ## C7: re-applying the kill-switch policy is idempotent -/

theorem nftExec_deleteTable (tbl : NftState) : nftExec tbl deleteTableCmd = none := rfl

/-- `linux_killswitch_apply_nft` produces the same firewall state regardless
of the state it starts from: its first statement deletes the dedicated
table. -/
theorem killswitch_apply_nft_state_blind (ns : List String) (proto : String)
    (port : Nat) (rip : Option String) (anyR : Bool) (t1 t2 : NftState) :
    nftRunCmds t1 (linux_killswitch_apply_nft_cmds ns proto port rip anyR) =
    nftRunCmds t2 (linux_killswitch_apply_nft_cmds ns proto port rip anyR) := by
  simp only [nftRunCmds, linux_killswitch_apply_nft_cmds, List.cons_append,
    List.foldl_cons, nftExec_deleteTable]

/-- C7: applying the kill-switch policy twice with identical inputs
(remotes-derived proto/port, learned ip, resolver list) leaves the firewall
in the same state as applying it once; the first statement issued is the
table deletion, so prior rules are never merged with the fresh ones. -/
theorem killswitch_apply_idempotent (ns : List String) (proto : String)
    (port : Nat) (rip : Option String) (anyR : Bool) (tbl : NftState) :
    nftRunCmds (nftRunCmds tbl (linux_killswitch_apply_nft_cmds ns proto port rip anyR))
        (linux_killswitch_apply_nft_cmds ns proto port rip anyR) =
      nftRunCmds tbl (linux_killswitch_apply_nft_cmds ns proto port rip anyR) ∧
    (linux_killswitch_apply_nft_cmds ns proto port rip anyR).head? =
      some deleteTableCmd := by
  refine ⟨killswitch_apply_nft_state_blind ns proto port rip anyR _ tbl, ?_⟩
  simp [linux_killswitch_apply_nft_cmds]

/-! ## C3: the zero-resolution fallback is applied to every remote -/

theorem buildRemoteLines_cons_any (env : NetEnv) (r : String × Nat × String)
    (rest : List (String × Nat × String)) :
    (buildRemoteLines env (r :: rest)).2 = true := by
  obtain ⟨host, port, proto⟩ := r
  rfl

theorem fallbackLine_mem_buildRemoteLines (env : NetEnv) (host : String)
    (port : Nat) (proto : String) :
    ∀ remotes : List (String × Nat × String), (host, port, proto) ∈ remotes →
      env.parseIp host = none → env.resolve host port = [] →
      fallbackLine (strContains proto "tcp") port ∈ (buildRemoteLines env remotes).1 := by
  intro remotes
  induction remotes with
  | nil => intro h; cases h
  | cons r rest ih =>
    intro hmem hlit hres
    obtain ⟨h2, p2, pr2⟩ := r
    rcases List.mem_cons.mp hmem with heq | htl
    · simp only [Prod.mk.injEq] at heq
      obtain ⟨rfl, rfl, rfl⟩ := heq
      simp only [buildRemoteLines, hlit, hres, List.isEmpty_nil, if_true]
      exact List.mem_append_left _ (by simp)
    · simp only [buildRemoteLines]
      exact List.mem_append_right _ (ih htl hlit hres)

/-- C3: `build_script` treats every remote whose hostname resolves to zero
addresses by the same explicit fallback — an allow rule for that remote's
port/transport to any destination — never by silently failing closed for
some remotes and falling back for others: the script succeeds and contains
the fallback rule for each such remote. -/
theorem build_script_unresolved_fallback_uniform (env : NetEnv)
    (remotes : List (String × Nat × String)) (host : String) (port : Nat)
    (proto : String) (hmem : (host, port, proto) ∈ remotes)
    (hlit : env.parseIp host = none) (hres : env.resolve host port = []) :
    ∃ lines, build_script env remotes = .ok lines ∧
      fallbackLine (strContains proto "tcp") port ∈ lines := by
  obtain ⟨r, rest, rfl⟩ : ∃ r rest, remotes = r :: rest := by
    cases remotes with
    | nil => cases hmem
    | cons r rest => exact ⟨r, rest, rfl⟩
  refine ⟨ksHeaderLines ++ (buildRemoteLines env (r :: rest)).1 ++ [dropLine], ?_, ?_⟩
  · simp [build_script, buildRemoteLines_cons_any env r rest]
  · exact List.mem_append_left _ (List.mem_append_right _
      (fallbackLine_mem_buildRemoteLines env host port proto _ hmem hlit hres))

/-- Witness environment for C3: a resolver that knows nothing. -/
def c3NetEnv : NetEnv := { parseIp := fun _ => none, resolve := fun _ _ => [] }

theorem build_script_unresolved_fallback_witness :
    (("vpn.example.com", 1194, "udp") ∈ [("vpn.example.com", 1194, "udp")]) ∧
    c3NetEnv.parseIp "vpn.example.com" = none ∧
    c3NetEnv.resolve "vpn.example.com" 1194 = [] ∧
    ∃ lines, build_script c3NetEnv [("vpn.example.com", 1194, "udp")] = .ok lines ∧
      fallbackLine (strContains "udp" "tcp") 1194 ∈ lines :=
  ⟨by decide, rfl, rfl,
   build_script_unresolved_fallback_uniform c3NetEnv _ "vpn.example.com" 1194 "udp"
     (by decide) rfl rfl⟩

/-! ## C8: watchdog timing -/

/-- The connect watchdog only ever fires once the absolute deadline has
passed and the subprocess has produced no fresh log bytes for at least the
idle grace period. -/
theorem watchdog_loop_fire_conditions (lastLog : Nat → Nat) (dl : Nat) :
    ∀ fuel t0 t, start_connect_watchdog_loop lastLog dl t0 fuel = some t →
      dl ≤ t ∧ CONNECT_STUCK_IDLE_GRACE_MS ≤ t - lastLog t := by
  intro fuel
  induction fuel with
  | zero => intro t0 t h; cases h
  | succ fuel ih =>
    intro t0 t h
    rw [start_connect_watchdog_loop] at h
    split at h
    · exact ih _ _ h
    · split at h
      · rename_i hdl hgr
        obtain rfl := Option.some.inj h
        exact ⟨Nat.le_of_not_lt hdl, hgr⟩
      · exact ih _ _ h

/-- When no log bytes arrive after the deadline, the watchdog fires at some
poll no earlier than the deadline and no later than deadline + grace + one
250 ms poll interval. -/
theorem watchdog_loop_upper (lastLog : Nat → Nat) (dl : Nat)
    (hq : ∀ u, lastLog u ≤ dl) :
    ∀ fuel t0, t0 ≤ dl + CONNECT_STUCK_IDLE_GRACE_MS →
      dl + CONNECT_STUCK_IDLE_GRACE_MS < t0 + 250 * fuel →
      ∃ t, start_connect_watchdog_loop lastLog dl t0 fuel = some t ∧
        dl ≤ t ∧ t ≤ dl + CONNECT_STUCK_IDLE_GRACE_MS + 250 := by
  intro fuel
  induction fuel with
  | zero => intro t0 h1 h2; omega
  | succ fuel ih =>
    intro t0 h1 h2
    rw [start_connect_watchdog_loop]
    split
    · rename_i hdl
      exact ih (t0 + 250) (by omega) (by omega)
    · rename_i hdl
      split
    -- fires now: `t0 + 250` is within the window
      · exact ⟨t0 + 250, rfl, by omega, by omega⟩
      · rename_i hgr
        have hll := hq (t0 + 250)
        exact ih (t0 + 250) (by omega) (by omega)

/-- C8 (amended): for a session that never completes initialization, the
watchdog (a) fires only when the deadline has passed and the subprocess has
been quiet for at least the grace period, and (b) provided no log bytes
arrive after the absolute deadline, transitions no earlier than the
deadline and no later than deadline + grace period + one 250 ms poll of
scheduling slack.  Without the quiescence proviso no upper bound exists
(see the counterexample). -/
theorem watchdog_fires_within_deadline_grace_slack (lastLog : Nat → Nat)
    (start fuel : Nat)
    (hq : ∀ u, lastLog u ≤ start + CONNECT_STUCK_SECS * 1000)
    (hfuel : start + CONNECT_STUCK_SECS * 1000 + CONNECT_STUCK_IDLE_GRACE_MS <
      start + 250 * fuel) :
    (∃ t, connect_watchdog_fire lastLog start fuel = some t ∧
      start + CONNECT_STUCK_SECS * 1000 ≤ t ∧
      t ≤ start + CONNECT_STUCK_SECS * 1000 + CONNECT_STUCK_IDLE_GRACE_MS + 250) ∧
    (∀ t, connect_watchdog_fire lastLog start fuel = some t →
      start + CONNECT_STUCK_SECS * 1000 ≤ t ∧
      CONNECT_STUCK_IDLE_GRACE_MS ≤ t - lastLog t) := by
  constructor
  · exact watchdog_loop_upper lastLog (start + CONNECT_STUCK_SECS * 1000) hq fuel start
      (by omega) hfuel
  · intro t h
    exact watchdog_loop_fire_conditions lastLog (start + CONNECT_STUCK_SECS * 1000)
      fuel start t h

/-- Witness for C8: a subprocess that stops logging immediately; the watchdog
fires between 10000 and 12250 ms. -/
theorem watchdog_fires_witness :
    ((0 : Nat) + CONNECT_STUCK_SECS * 1000 + CONNECT_STUCK_IDLE_GRACE_MS <
      0 + 250 * 49) ∧
    ∃ t, connect_watchdog_fire (fun _ => 0) 0 49 = some t ∧
      0 + CONNECT_STUCK_SECS * 1000 ≤ t ∧
      t ≤ 0 + CONNECT_STUCK_SECS * 1000 + CONNECT_STUCK_IDLE_GRACE_MS + 250 :=
  ⟨by decide,
   (watchdog_fires_within_deadline_grace_slack (fun _ => 0) 0 49
     (fun u => Nat.zero_le _) (by decide)).1⟩

set_option maxRecDepth 10000 in
/-- C8 counterexample: a subprocess that never emits the completion marker
but keeps appending log bytes (`lastLog u = u`) resets the idle grace window
forever, so after 400 polls — 100 000 ms, far beyond deadline (10 000 ms) +
grace (2 000 ms) + any reasonable scheduling slack — the watchdog still has
not fired, refuting the claim's unconditional upper bound. -/
theorem watchdog_unbounded_when_logs_keep_arriving :
    connect_watchdog_fire (fun u => u) 0 400 = none ∧
    CONNECT_STUCK_SECS * 1000 + CONNECT_STUCK_IDLE_GRACE_MS + 250 < 0 + 250 * 400 := by
  constructor
  · decide
  · decide

/-! ## C9: the subscribe stream -/

/-- C9 counterexample: the wire format of a status event keys the value under
`"status"`, not `"value"` — the first line sent to a subscriber while the
helper is connected is `{"type":"status","status":"connected"}`. -/
theorem subscribe_status_event_key_mismatch :
    eventToJson (HelperEvent.statusEv "connected") =
      "\x7b\"type\":\"status\",\"status\":\"connected\"\x7d" ∧
    eventToJson (HelperEvent.statusEv "connected") ≠
      "\x7b\"type\":\"status\",\"value\":\"connected\"\x7d" ∧
    handle_subscribe St.connected [] =
      ["\x7b\"type\":\"status\",\"status\":\"connected\"\x7d"] := by
  refine ⟨by decide, by decide, by decide⟩

theorem subscribeLoop_eq_filterMap (stream : List RecvItem) :
    subscribeLoop stream = stream.filterMap recvMsgOf := by
  induction stream with
  | nil => rfl
  | cons x rest ih => cases x <;> simp [subscribeLoop, recvMsgOf, ih]

/-- C9 (amended): on subscribe the helper immediately writes the current
status as an event in the wire format `{"type":"status","status":...}` /
`{"type":"log","line":...}`, then forwards every published event in order;
a subscriber that lagged behind the bounded broadcast buffer has the missed
messages skipped (`Lagged` is consumed and the loop continues) instead of
blocking the publisher. -/
theorem subscribe_streams_current_status_then_events (cur : St)
    (stream : List RecvItem) :
    handle_subscribe cur stream =
      eventToJson (HelperEvent.statusEv cur.asStr) :: stream.filterMap recvMsgOf ∧
    (handle_subscribe cur stream).head? =
      some (eventToJson (HelperEvent.statusEv cur.asStr)) := by
  refine ⟨?_, rfl⟩
  simp [handle_subscribe, subscribeLoop_eq_filterMap]

/-! ## C1: pre-spawn connect failures leave status at "connecting" -/

/-- C1 (code bug): `vpn_connect` sets status to `"connecting"` before
resolving the config and only the "config file does not exist" branch resets
it; a config download failure and a missing OpenVPN binary both return an
error while leaving the observable status at `"connecting"` with no
subprocess and no watchdog armed. The last conjunct shows the contrasting
branch the source does reset, evidencing the intended behaviour. -/
theorem connect_prespawn_failure_leaves_connecting :
    (vpn_connect c5Env initVpnSt "https://cfg.example.com/stellar.ovpn" none
        none).result = .error "Failed to download config" ∧
    (vpn_connect c5Env initVpnSt "https://cfg.example.com/stellar.ovpn" none
        none).state.status = "connecting" ∧
    (vpn_connect c5Env initVpnSt "https://cfg.example.com/stellar.ovpn" none
        none).spawned = false ∧
    (vpn_connect c5Env initVpnSt "/etc/stellar/local.ovpn" none none).result =
      .error "OpenVPN binary not found" ∧
    (vpn_connect c5Env initVpnSt "/etc/stellar/local.ovpn" none none).state.status =
      "connecting" ∧
    (vpn_connect { c5Env with fileExists := fun _ => false } initVpnSt
        "/missing.ovpn" none none).state.status = "disconnected" := by
  refine ⟨by decide, by decide, by decide, by decide, by decide, by decide⟩

/-! ## C4: the set of observable status values -/

def c4Env : Env :=
  { c5Env with
    openvpnLocated := some "/usr/sbin/openvpn"
    runtimeFiles := .ok ("openvpn.log", "openvpn.status.txt", "openvpn.pid")
    spawn := .ok 1
    pidFileRead := some 4242 }

def c4Trace : List Ev :=
  [Ev.connectCall c4Env "/etc/stellar/local.ovpn" none none,
   Ev.watcherPoll 1 (.error "wait failed")]

/-- C4 counterexample: after a successful connect, a failing `try_wait` poll
in the child-exit watcher stores `"error: wait failed"` — a status value
outside the three defined ones. -/
theorem status_fourth_value_reachable :
    (vpnRun initVpnSt c4Trace).status = "error: wait failed" ∧
    ¬((vpnRun initVpnSt c4Trace).status = "disconnected" ∨
      (vpnRun initVpnSt c4Trace).status = "connecting" ∨
      (vpnRun initVpnSt c4Trace).status = "connected") := by
  refine ⟨by decide, by decide⟩

/-! ### The status-value invariant (amended C4) -/

theorem listIsPrefixOf_append {α : Type} [DecidableEq α] (l t : List α) :
    l.isPrefixOf (l ++ t) = true := by
  induction l with
  | nil => simp [List.isPrefixOf]
  | cons a as ih => simp [List.isPrefixOf, ih]

theorem validStatus_error (e : String) : validStatus ("error: " ++ e) = true := by
  have h : strStartsWith ("error: " ++ e) "error: " = true := by
    simp [strStartsWith, String.data_append, listIsPrefixOf_append]
  simp [validStatus, h]

theorem ks_branch_ok_fields (env : Env) (s1 : VpnSt) (proto : String) (port : Nat)
    (seeded : Option String) (s2 : VpnSt) (calls : List FwCall)
    (h : (if s1.killswitch_enabled = true then
            linux_killswitch_apply env s1 proto port seeded seeded.isNone
          else .ok (s1, [])) = .ok (s2, calls)) :
    s2.status = s1.status := by
  split at h
  · have h2 := linux_killswitch_apply_ok_state env s1 proto port seeded
      seeded.isNone s2 calls h
    subst h2
    rfl
  · injection h with h'
    have h1 : s1 = s2 := congrArg Prod.fst h'
    rw [← h1]

theorem vpn_connect_after_resolve_status (env : Env) (s1 : VpnSt) (path : String)
    (bodyOpt req : Option String) (u p : Option String) :
    (vpn_connect_after_resolve env s1 path bodyOpt req u p).state.status = s1.status ∨
    (vpn_connect_after_resolve env s1 path bodyOpt req u p).state.status =
      "disconnected" := by
  simp only [vpn_connect_after_resolve]
  split
  · exact Or.inr rfl
  · split
    · exact Or.inl rfl
    · split
      · exact Or.inl rfl
      · split
        · exact Or.inl rfl
        · split
          · exact Or.inl rfl
          · rename_i s2 calls heq
            split
            · exact Or.inl (ks_branch_ok_fields env s1 _ _ _ s2 calls heq)
            · exact Or.inl (ks_branch_ok_fields env s1 _ _ _ s2 calls heq)

theorem vpn_connect_resolve_dispatch_status (env : Env) (s1 : VpnSt)
    (cfg_in : String) (u p : Option String) :
    (vpn_connect_resolve_dispatch env s1 cfg_in u p).state.status = s1.status ∨
    (vpn_connect_resolve_dispatch env s1 cfg_in u p).state.status =
      "disconnected" := by
  unfold vpn_connect_resolve_dispatch
  split
  · split
    · exact Or.inl rfl
    · exact vpn_connect_after_resolve_status env s1 _ _ _ u p
  · exact vpn_connect_after_resolve_status env s1 _ _ _ u p

theorem vpn_connect_status_cases (env : Env) (s : VpnSt) (cfg : String)
    (u p : Option String) :
    (vpn_connect env s cfg u p).state.status = s.status ∨
    (vpn_connect env s cfg u p).state.status = "connecting" ∨
    (vpn_connect env s cfg u p).state.status = "disconnected" := by
  simp only [vpn_connect]
  split
  · exact Or.inl rfl
  · split
    · exact Or.inl rfl
    · rcases vpn_connect_resolve_dispatch_status env _ _ u p with h | h
      · exact Or.inr (Or.inl h)
      · exact Or.inr (Or.inr h)

theorem vpn_disconnect_status (env : Env) (s : VpnSt) :
    (vpn_disconnect env s).state.status = "disconnected" := by
  simp only [vpn_disconnect]
  split
  · split
    · rename_i s2 calls heq
      have h2 := linux_killswitch_apply_ok_state env _ _ _ _ _ s2 calls heq
      subst h2
      rfl
    · rfl
  · rfl

theorem killswitch_set_status (env : Env) (s : VpnSt) (en : Bool)
    (cfg : Option String) :
    (killswitch_set env s en cfg).state.status = s.status := by
  simp only [killswitch_set]
  split
  · rfl
  · split
    · rfl
    · split
      · rename_i s2 calls heq
        have h2 := linux_killswitch_apply_ok_state env _ _ _ _ _ s2 calls heq
        subst h2
        rfl
      · rfl

theorem tailer_tighten_status (env : Env) (line : String) (s : VpnSt) :
    (tailer_tighten env line s).status = s.status := by
  simp only [tailer_tighten]
  split
  · split
    · split
      · split
        · rename_i s2 calls heq
          have h2 := linux_killswitch_apply_ok_state env _ _ _ _ _ s2 calls heq
          subst h2
          rfl
        · rfl
      · rfl
    · rfl
  · rfl

theorem tailer_promote_status (env : Env) (line : String) (s1 : VpnSt) :
    (tailer_promote env line s1).status = s1.status ∨
    (tailer_promote env line s1).status = "connected" := by
  simp only [tailer_promote]
  split
  · split
    · split
      · rename_i s2 calls heq
        have h2 := linux_killswitch_apply_ok_state env _ _ _ _ _ s2 calls heq
        subst h2
        exact Or.inr rfl
      · exact Or.inr rfl
    · exact Or.inr rfl
  · exact Or.inl rfl

theorem tailer_status_cases (env : Env) (sid : Nat) (line : String) (s : VpnSt) :
    (tailer_process_line env sid line s).status = s.status ∨
    (tailer_process_line env sid line s).status = "connected" ∨
    (tailer_process_line env sid line s).status = "disconnected" := by
  simp only [tailer_process_line]
  split
  · exact Or.inl rfl
  · split
    · exact Or.inr (Or.inr rfl)
    · rcases tailer_promote_status env line (tailer_tighten env line s) with h | h
      · exact Or.inl (h.trans (tailer_tighten_status env line s))
      · exact Or.inr (Or.inl h)

theorem watchdog_abort_status (env : Env) (s : VpnSt) :
    (watchdog_abort_connect env s).1.status = "disconnected" := by
  simp only [watchdog_abort_connect]
  split
  · split
    · rename_i s2 calls heq
      have h2 := linux_killswitch_apply_ok_state env _ _ _ _ _ s2 calls heq
      subst h2
      rfl
    · rfl
  · rfl

theorem validStatus_disconnected : validStatus "disconnected" = true := by decide

theorem validStatus_connecting : validStatus "connecting" = true := by decide

theorem validStatus_connected : validStatus "connected" = true := by decide

theorem step_preserves_validStatus (s : VpnSt) (ev : Ev)
    (h : validStatus s.status = true) : validStatus (vpnStep s ev).status = true := by
  cases ev with
  | connectCall env cfg u p =>
    rcases vpn_connect_status_cases env s cfg u p with h1 | h1 | h1 <;>
      simp only [vpnStep, h1] <;>
      first
        | exact h
        | exact validStatus_connecting
  | disconnectCall env =>
    simp only [vpnStep, vpn_disconnect_status]
    exact validStatus_disconnected
  | killswitchSet env en cfg =>
    simp only [vpnStep, killswitch_set_status]
    exact h
  | tailerLine env sid line =>
    rcases tailer_status_cases env sid line s with h1 | h1 | h1 <;>
      simp only [vpnStep, h1] <;>
      first
        | exact h
        | exact validStatus_connected
  | watchdogPoll env sid dl idle =>
    simp only [vpnStep]
    split
    · simp only [watchdog_abort_status]
      exact validStatus_disconnected
    · exact h
  | watcherPoll sid outcome =>
    simp only [vpnStep, watcher_step]
    split
    · exact h
    · split
      · exact h
      · split
        · exact validStatus_disconnected
        · exact h
        · exact validStatus_error _
  | recover env sf =>
    simp only [vpnStep, recover_on_startup]
    split
    · exact h
    · split
      · exact h
      · exact validStatus_connecting

/-- C4 (amended): over every event sequence the supervisor's status is one
of the three defined values or an `"error: ..."` string (recorded by the
child-exit watcher when polling the subprocess fails); the pure three-value
claim is refuted by the counterexample. -/
theorem status_values_invariant (evs : List Ev) :
    validStatus (vpnRun initVpnSt evs).status = true := by
  suffices h : ∀ s, validStatus s.status = true →
      validStatus (vpnRun s evs).status = true by
    exact h initVpnSt (by decide)
  induction evs with
  | nil => intro s hs; exact hs
  | cons e rest ih =>
    intro s hs
    exact ih (vpnStep s e) (step_preserves_validStatus s e hs)

end StellarVPN
